import Mathlib

/-!
Shallow embedding of `src/server.js` (the `solbac` repository): an Express
handler `POST /api/wallet` that aggregates a Solana wallet's native balance
and SPL-token holdings, notifies a Telegram channel, and builds a sweep
transaction that is either returned unsigned or backend-signed and submitted.

External effects (RPC calls, the registry, Telegram, the optional backend
signer) are modelled as an `Env` record of total functions returning
`Except`; the handler `runWallet` threads them sequentially exactly as the
source awaits them, and additionally returns an `Effects` record logging
which external operations ran (mirroring the source's control flow, for
call-count style assertions).

JavaScript floating-point display values (`balance / LAMPORTS_PER_SOL`,
`Number(amount) / 10 ** decimals`) are represented by their exact integer
numerators (`balanceLamports`, `rawAmount` together with `decimals`); the
division is a display-only derivation in the source and no control flow
depends on it.
-/

namespace Solbac

/-- An opaque ledger public key (`PublicKey` in the source). -/
structure PubKey where
  key : String
deriving DecidableEq

/-- The fixed sweep destination, `new PublicKey('84vka…')` at src/server.js:135. -/
def recipient : PubKey := ⟨"84vka944L9qFdBZKHEvpfDp9qqJ5sfcjDXaQ3wjxVRLM"⟩

/-- The fixed memo string, src/server.js:137. -/
def memoText : String := "Signed via your app"

/-- An entry of the SPL token registry (`tokenList` element).  In the registry
type `decimals/symbol/name` are required fields (so present whenever the entry
is), while `logoURI` is optional. -/
structure RegistryEntry where
  address  : String
  decimals : Nat
  symbol   : String
  name     : String
  logoURI  : Option String
deriving DecidableEq

/-- Result of `getAccount` on a token account: parsed mint and raw amount. -/
structure TokenAccountInfo where
  mint   : String
  amount : Nat
deriving DecidableEq

/-- An element of `validSplBalances` (the object built at src/server.js:84-91).
The source's `balance` float is `Number(amount) / 10 ** decimals`; it is
represented exactly by the pair (`rawAmount`, `decimals`). -/
structure Holding where
  mint      : String
  rawAmount : Nat
  decimals  : Nat
  symbol    : String
  name      : String
  logoURI   : String
deriving DecidableEq

/-- A transaction instruction.  The three kinds the handler ever adds:
SPL-token transfers (src/server.js:153-159), the native SOL transfer
(src/server.js:166-172), and the memo (src/server.js:174). -/
inductive Instr where
  | tokenTransfer (source destination owner : PubKey) (amount : Nat)
  | nativeTransfer (fromPubkey toPubkey : PubKey) (lamports : Int)
  | memo (text : String)
deriving DecidableEq

/-- The assembled `Transaction` (src/server.js:140-174). -/
structure Transaction where
  recentBlockhash : String
  feePayer        : PubKey
  instructions    : List Instr
deriving DecidableEq

/-- The four JSON response shapes the handler produces.  `okUnsigned` covers
both the insufficient-balance response (transaction `null`, message present)
and the unsigned-sweep response (transaction present, no message);
`okSigned` is the backend-signed success; `badRequest` is the 400 and
`serverError` the 500s. -/
inductive Response where
  | badRequest (error : String)
  | okUnsigned (balanceLamports : Nat) (splBalances : List Holding)
      (transaction : Option Transaction) (message : Option String)
  | okSigned (balanceLamports : Nat) (splBalances : List Holding)
      (txid : String) (message : String)
  | serverError (error : String) (details : Option String)
deriving DecidableEq

/-- HTTP status of each response shape. -/
def Response.status : Response → Nat
  | .badRequest _ => 400
  | .okUnsigned _ _ _ _ => 200
  | .okSigned _ _ _ _ => 200
  | .serverError _ _ => 500

/-- The request body: `{ walletAddress }`, possibly absent. -/
structure Request where
  walletAddress : Option String
deriving DecidableEq

/-- The process environment: every external operation the handler awaits,
as a total function returning `Except` (an `.error` models a thrown /
rejected promise).  `signer` is the optional backend keypair's public key
(src/server.js:31-32); `tokenList` the registry loaded at startup. -/
structure Env where
  parsePubkey : String → Option PubKey
  getBalance : PubKey → Except String Nat
  getTokenAccountsByOwner : PubKey → Except String (List PubKey)
  getAccount : PubKey → Except String TokenAccountInfo
  tokenList : List RegistryEntry
  getParsedAccountInfo : String → Except String (Option Nat)
  sendMessage : Except String String
  lamportsPerSignature : Except String Nat
  getLatestBlockhash : Except String String
  signer : Option PubKey
  getAssociatedTokenAddress : PubKey → PubKey → Except String PubKey
  sendRawTransaction : Except String String
  confirmTransaction : String → Except String Unit

/-- JavaScript `a || d` on an optional number (`undefined` is `none`):
falsy for `undefined` and for `0`. -/
def jsOrNat (v : Option Nat) (d : Nat) : Nat :=
  match v with
  | none => d
  | some n => if n = 0 then d else n

/-- JavaScript `a || d` on an optional string: falsy for `undefined` and `""`. -/
def jsOrStr (v : Option String) (d : String) : String :=
  match v with
  | none => d
  | some s => if s = "" then d else s

/-- JavaScript truthiness test `!a` on an optional number. -/
def jsFalsyNat (v : Option Nat) : Bool :=
  match v with
  | none => true
  | some n => n == 0

/-- JavaScript truthiness test `!a` on an optional string. -/
def jsFalsyStr (v : Option String) : Bool :=
  match v with
  | none => true
  | some s => s == ""

/-- `tokenList.find(t => t.address === mintAddress)`, src/server.js:63. -/
def registryLookup (env : Env) (mintAddress : String) : Option RegistryEntry :=
  env.tokenList.find? (fun t => t.address == mintAddress)

/-- The hard-coded default token name derived from the truncated mint
identifier (src/server.js:74 and 78). -/
def defaultName (mintAddress : String) : String :=
  "Token (" ++ mintAddress.take 4 ++ "...)"

/-- The condition under which the on-chain mint query at src/server.js:71
runs: the source tests `if (!decimals || !symbol || !name)` on the values
read from the registry entry (if any), so JavaScript falsiness — not mere
absence of a registry entry — triggers the fallback. -/
def mintQueryOccurs (env : Env) (mintAddress : String) : Bool :=
  let ti := registryLookup env mintAddress
  jsFalsyNat (ti.map (·.decimals)) || jsFalsyStr (ti.map (·.symbol))
    || jsFalsyStr (ti.map (·.name))

/-- Resolution of (decimals, symbol, name) for a mint, src/server.js:63-80.
When the fallback branch runs and the on-chain query succeeds, `decimals`
is re-read from the chain (`mintInfo.value?.data.parsed.info.decimals || 9`),
`symbol`/`name` keep any truthy registry value; when the query throws, all
three are hard defaults.  Outside the fallback the registry values (all
truthy there, so the `getD` defaults are unreachable) are used. -/
def resolveMeta (env : Env) (mintAddress : String) : Nat × String × String :=
  let ti := registryLookup env mintAddress
  let decimals := ti.map (·.decimals)
  let symbol := ti.map (·.symbol)
  let name := ti.map (·.name)
  if jsFalsyNat decimals || jsFalsyStr symbol || jsFalsyStr name then
    match env.getParsedAccountInfo mintAddress with
    | .ok mintDecimals =>
        (jsOrNat mintDecimals 9, jsOrStr symbol "TOKEN",
         jsOrStr name (defaultName mintAddress))
    | .error _ => (9, "TOKEN", defaultName mintAddress)
  else
    (decimals.getD 9, symbol.getD "TOKEN", name.getD (defaultName mintAddress))

/-- Resolution of one discovered token account (the body of the
`Promise.all` map, src/server.js:58-97): `getAccount`, the zero-amount
filter, metadata resolution, and the surrounding `try/catch` that turns any
per-account failure into `null` (`none`). -/
def processAccount (env : Env) (accountPubkey : PubKey) : Option Holding :=
  match env.getAccount accountPubkey with
  | .error _ => none
  | .ok tokenAccount =>
    if tokenAccount.amount > 0 then
      let mintAddress := tokenAccount.mint
      let meta := resolveMeta env mintAddress
      some { mint := mintAddress
             rawAmount := tokenAccount.amount
             decimals := meta.1
             symbol := meta.2.1
             name := meta.2.2
             logoURI := jsOrStr ((registryLookup env mintAddress).bind (·.logoURI)) "" }
    else none

/-- Construction of one per-token transfer instruction (the loop body at
src/server.js:145-164): derive both associated token addresses, re-read the
source account, and emit a full-balance transfer if still positive; the
surrounding `try/catch` turns any failure into a skip (`none`). -/
def buildTokenInstr (env : Env) (payer : PubKey) (tokenData : Holding) : Option Instr :=
  match env.parsePubkey tokenData.mint with
  | none => none
  | some mintPubkey =>
    match env.getAssociatedTokenAddress mintPubkey payer with
    | .error _ => none
    | .ok sourceATA =>
      match env.getAssociatedTokenAddress mintPubkey recipient with
      | .error _ => none
      | .ok destinationATA =>
        match env.getAccount sourceATA with
        | .error _ => none
        | .ok tokenAccount =>
          if tokenAccount.amount > 0 then
            some (.tokenTransfer sourceATA destinationATA payer tokenAccount.amount)
          else none

/-- Assembly of the sweep transaction, src/server.js:140-174: fee payer is
`signer?.publicKey || payer`; instructions are the surviving token transfers
in `validSplBalances` order, then the native transfer of `amount`, then the
memo. -/
def buildTransaction (env : Env) (payer : PubKey) (validSplBalances : List Holding)
    (amount : Int) (blockhash : String) : Transaction :=
  { recentBlockhash := blockhash
    feePayer := env.signer.getD payer
    instructions :=
      validSplBalances.filterMap (buildTokenInstr env payer)
        ++ [Instr.nativeTransfer payer recipient amount, Instr.memo memoText] }

/-- Log of which external operations the handler performed, mirroring the
source's control flow; used for the spec's call-count assertions. -/
structure Effects where
  balanceQueried : Bool := false
  tokenAccountsQueried : Bool := false
  notified : Bool := false
  feeQueried : Bool := false
  blockhashQueried : Bool := false
  builtTx : Option Transaction := none
  signCount : Nat := 0
  sendRawCount : Nat := 0
  confirmCount : Nat := 0
deriving DecidableEq

/-- The catch-all 500 response, src/server.js:205-207. -/
def catchAllResponse : Response :=
  .serverError "Failed to process wallet address" none

/-- The handler from the Telegram notification onward (src/server.js:117-203),
factored on `validSplBalances` because the source past line 99 depends on the
snapshot only through that list: notify, fee estimate, the insufficient-balance
early return, transaction assembly, and the signed/unsigned branch. -/
def afterSnapshot (env : Env) (publicKey : PubKey) (balance : Nat)
    (validSplBalances : List Holding) : Response × Effects :=
  match env.sendMessage with
  | .error _ => (catchAllResponse, { notified := true })
  | .ok _ =>
    match env.lamportsPerSignature with
    | .error _ => (catchAllResponse, { notified := true, feeQueried := true })
    | .ok perSignature =>
      let transactionFee := perSignature * 3
      if balance ≤ transactionFee then
        (.okUnsigned balance validSplBalances none
           (some "Insufficient SOL balance for transaction"),
         { notified := true, feeQueried := true })
      else
        let amount : Int := (balance : Int) - (transactionFee : Int)
        match env.getLatestBlockhash with
        | .error _ =>
            (catchAllResponse,
             { notified := true, feeQueried := true, blockhashQueried := true })
        | .ok blockhash =>
          let transaction := buildTransaction env publicKey validSplBalances amount blockhash
          match env.signer with
          | some _ =>
            match env.sendRawTransaction with
            | .error e =>
                (.serverError "Transaction failed" (some e),
                 { notified := true, feeQueried := true, blockhashQueried := true,
                   builtTx := some transaction, signCount := 1, sendRawCount := 1 })
            | .ok txid =>
              match env.confirmTransaction txid with
              | .error e =>
                  (.serverError "Transaction failed" (some e),
                   { notified := true, feeQueried := true, blockhashQueried := true,
                     builtTx := some transaction, signCount := 1, sendRawCount := 1,
                     confirmCount := 1 })
              | .ok _ =>
                  (.okSigned balance validSplBalances txid
                     "Transaction sent successfully (backend-signed)",
                   { notified := true, feeQueried := true, blockhashQueried := true,
                     builtTx := some transaction, signCount := 1, sendRawCount := 1,
                     confirmCount := 1 })
          | none =>
            (.okUnsigned balance validSplBalances (some transaction) none,
             { notified := true, feeQueried := true, blockhashQueried := true,
               builtTx := some transaction })

/-- The whole `POST /api/wallet` handler (src/server.js:42-208): the
missing/empty-address 400, then inside the `try`: address parse, native
balance query, token-account discovery, the `Promise.all` aggregation and
`null` filter, and `afterSnapshot`; any throw before the insufficient-balance
return lands in the catch-all 500. -/
def runWallet (env : Env) (req : Request) : Response × Effects :=
  match req.walletAddress with
  | none => (.badRequest "Wallet address is required", {})
  | some walletAddress =>
    if walletAddress = "" then (.badRequest "Wallet address is required", {})
    else
      match env.parsePubkey walletAddress with
      | none => (catchAllResponse, {})
      | some publicKey =>
        match env.getBalance publicKey with
        | .error _ => (catchAllResponse, { balanceQueried := true })
        | .ok balance =>
          match env.getTokenAccountsByOwner publicKey with
          | .error _ =>
              (catchAllResponse, { balanceQueried := true, tokenAccountsQueried := true })
          | .ok tokenAccounts =>
            let validSplBalances := tokenAccounts.filterMap (processAccount env)
            let r := afterSnapshot env publicKey balance validSplBalances
            (r.1, { r.2 with balanceQueried := true, tokenAccountsQueried := true })

/-- `Promise.all` with an explicit completion schedule: the promises settle
in `sched` order, but each settling writes its result into its own original
position of the output array (that is JavaScript's `Promise.all` semantics).
Used to state the ordering claims about the concurrent aggregation. -/
def promiseAllSched {α : Type} (sched : List Nat) (results : List α) (dflt : α) : List α :=
  sched.foldl (fun acc i => acc.set i (results.getD i dflt)) (List.replicate results.length dflt)

/-- The `splBalances` array as produced by the `Promise.all` at
src/server.js:58, under an explicit completion schedule. -/
def splBalancesSched (env : Env) (tokenAccounts : List PubKey) (sched : List Nat) :
    List (Option Holding) :=
  promiseAllSched sched (tokenAccounts.map (processAccount env)) none

/-- A concrete environment for evaluating the handler: every address except
the literal `"bad"` parses, the wallet holds 10 lamports and no token
accounts, the registry is empty, Telegram succeeds, the fee floor is
1 lamport per signature, and no backend signer is configured. -/
def envBase : Env where
  parsePubkey := fun s => if s = "bad" then none else some ⟨s⟩
  getBalance := fun _ => Except.ok 10
  getTokenAccountsByOwner := fun _ => Except.ok []
  getAccount := fun _ => Except.error "account missing"
  tokenList := []
  getParsedAccountInfo := fun _ => Except.error "rpc down"
  sendMessage := Except.ok "msgid"
  lamportsPerSignature := Except.ok 1
  getLatestBlockhash := Except.ok "BH1"
  signer := none
  getAssociatedTokenAddress := fun m o => Except.ok ⟨m.key ++ "@" ++ o.key⟩
  sendRawTransaction := Except.error "rpc down"
  confirmTransaction := fun _ => Except.error "rpc down"

/-- Environment with a zero per-signature fee floor and a 1-lamport balance. -/
def envC1 : Env :=
  { envBase with getBalance := fun _ => Except.ok 1,
                 lamportsPerSignature := Except.ok 0 }

/-- Environment whose wallet balance (2 lamports) is below the reserved fee. -/
def envC3 : Env :=
  { envBase with getBalance := fun _ => Except.ok 2 }

/-- Environment with one resolvable token account (`acc1`, 5 units of
`Mint1`) and one whose `getAccount` read fails (`accBad`); every derived
associated token account read also fails. -/
def envC4 : Env :=
  { envBase with
      getTokenAccountsByOwner := fun _ => Except.ok [⟨"acc1"⟩, ⟨"accBad"⟩],
      getAccount := fun k =>
        if k.key = "acc1" then Except.ok ⟨"Mint1", 5⟩ else Except.error "boom" }

/-- The holding that `envC4` aggregates for `acc1` (empty registry, failing
mint query, hence all-default metadata). -/
def tC4 : Holding :=
  { mint := "Mint1", rawAmount := 5, decimals := 9, symbol := "TOKEN",
    name := "Token (Mint...)", logoURI := "" }

/-- Environment whose registry has an entry for `MintZ` with `decimals: 0`
(a perfectly legal zero-decimals token) and whose on-chain mint query also
reports 0 decimals. -/
def envC5 : Env :=
  { envBase with
      tokenList := [⟨"MintZ", 0, "SYM", "NameZ", none⟩],
      getParsedAccountInfo := fun _ => Except.ok (some 0) }

/-- Environment whose registry has an all-truthy entry for `MintY` and a
zero-decimals entry for `MintZ`, whose on-chain mint query succeeds (with
decimals 0) for `MintZ` only, and which knows no other mint. -/
def envC5m : Env :=
  { envBase with
      tokenList := [⟨"MintY", 6, "SY", "NY", some "logo"⟩,
                    ⟨"MintZ", 0, "SYM", "NameZ", none⟩],
      getParsedAccountInfo := fun m =>
        if m = "MintZ" then Except.ok (some 0) else Except.error "rpc down" }

/-- `envBase` with a backend signer configured and a working
submission/confirmation path. -/
def envSigned : Env :=
  { envBase with
      signer := some ⟨"SIGNER"⟩,
      sendRawTransaction := Except.ok "TX1",
      confirmTransaction := fun _ => Except.ok () }

/-- `envBase` with the Telegram push failing. -/
def envC8fail : Env :=
  { envBase with sendMessage := Except.error "telegram down" }

/-- Environment with one positive-amount token account (`acc1`) and one
zero-amount token account (`accZ`). -/
def envC6 : Env :=
  { envBase with
      getTokenAccountsByOwner := fun _ => Except.ok [⟨"acc1"⟩, ⟨"accZ"⟩],
      getAccount := fun k =>
        if k.key = "acc1" then Except.ok ⟨"Mint1", 5⟩
        else if k.key = "accZ" then Except.ok ⟨"MintZ", 0⟩
        else Except.error "boom" }

/-- Environment with two resolvable token accounts holding different
mints and amounts. -/
def envC9 : Env :=
  { envBase with
      getAccount := fun k =>
        if k.key = "acc1" then Except.ok ⟨"Mint1", 5⟩
        else if k.key = "acc2" then Except.ok ⟨"Mint2", 7⟩
        else Except.error "boom" }

/-- Whether an instruction is an SPL-token transfer. -/
def Instr.isTokenTransfer : Instr → Bool
  | .tokenTransfer _ _ _ _ => true
  | _ => false

/-- Whether an instruction is the native SOL transfer. -/
def Instr.isNativeTransfer : Instr → Bool
  | .nativeTransfer _ _ _ => true
  | _ => false

/-- Whether an instruction is a memo. -/
def Instr.isMemo : Instr → Bool
  | .memo _ => true
  | _ => false

/-- The lamport amounts of the native transfers of a transaction, in order. -/
def nativeAmounts (t : Transaction) : List Int :=
  t.instructions.filterMap fun i =>
    match i with
    | .nativeTransfer _ _ l => some l
    | _ => none

/-- Anything `buildTokenInstr` emits is an SPL-token transfer instruction. -/
lemma buildTokenInstr_isTokenTransfer (env : Env) (payer : PubKey) (t : Holding)
    (i : Instr) (h : buildTokenInstr env payer t = some i) :
    i.isTokenTransfer = true := by
  unfold buildTokenInstr at h
  repeat' split at h
  all_goals try exact Option.noConfusion h
  rw [Option.some_inj] at h
  subst h
  rfl

lemma mem_buildTokenInstrs_isTokenTransfer (env : Env) (payer : PubKey)
    (vals : List Holding) (i : Instr)
    (h : i ∈ vals.filterMap (buildTokenInstr env payer)) :
    i.isTokenTransfer = true := by
  rcases List.mem_filterMap.mp h with ⟨t, _, ht⟩
  exact buildTokenInstr_isTokenTransfer env payer t i ht

/-- C2.  In every transaction the builder assembles, the instruction list is
some list of SPL-token transfer instructions followed by exactly the native
transfer and then the memo; in particular there is exactly one native
transfer and exactly one memo and they are the last two instructions, in
that order, whatever holdings were discovered. -/
theorem instruction_ordering (env : Env) (payer : PubKey) (vals : List Holding)
    (amount : Int) (blockhash : String) :
    ∃ ts : List Instr,
      (buildTransaction env payer vals amount blockhash).instructions
          = ts ++ [Instr.nativeTransfer payer recipient amount, Instr.memo memoText]
        ∧ (∀ i ∈ ts, i.isTokenTransfer = true)
        ∧ (buildTransaction env payer vals amount blockhash).instructions.countP
            (fun i => i.isNativeTransfer) = 1
        ∧ (buildTransaction env payer vals amount blockhash).instructions.countP
            (fun i => i.isMemo) = 1 := by
  refine ⟨vals.filterMap (buildTokenInstr env payer), rfl, ?_, ?_, ?_⟩
  · intro i hi
    exact mem_buildTokenInstrs_isTokenTransfer env payer vals i hi
  · show ((vals.filterMap (buildTokenInstr env payer)) ++ _).countP _ = 1
    rw [List.countP_append]
    have h0 : (vals.filterMap (buildTokenInstr env payer)).countP
        (fun i => i.isNativeTransfer) = 0 := by
      rw [List.countP_eq_zero]
      intro i hi
      have := mem_buildTokenInstrs_isTokenTransfer env payer vals i hi
      cases i <;> simp_all [Instr.isTokenTransfer, Instr.isNativeTransfer]
    rw [h0]
    rfl
  · show ((vals.filterMap (buildTokenInstr env payer)) ++ _).countP _ = 1
    rw [List.countP_append]
    have h0 : (vals.filterMap (buildTokenInstr env payer)).countP
        (fun i => i.isMemo) = 0 := by
      rw [List.countP_eq_zero]
      intro i hi
      have := mem_buildTokenInstrs_isTokenTransfer env payer vals i hi
      cases i <;> simp_all [Instr.isTokenTransfer, Instr.isMemo]
    rw [h0]
    rfl

/-- Whatever branch of the post-snapshot pipeline builds the transaction,
its fee payer is `signer?.publicKey || payer` (src/server.js:142). -/
lemma afterSnapshot_builtTx_feePayer (env : Env) (pk : PubKey) (b : Nat)
    (vals : List Holding) (tx : Transaction)
    (htx : (afterSnapshot env pk b vals).2.builtTx = some tx) :
    tx.feePayer = env.signer.getD pk := by
  unfold afterSnapshot at htx
  rcases hm : env.sendMessage with e | m
  · simp [hm] at htx
  simp only [hm] at htx
  rcases hf : env.lamportsPerSignature with e | p
  · simp [hf] at htx
  simp only [hf] at htx
  by_cases hle : b ≤ p * 3
  · simp [if_pos hle] at htx
  simp only [if_neg hle] at htx
  rcases hbh : env.getLatestBlockhash with e | bh
  · simp [hbh] at htx
  simp only [hbh] at htx
  rcases hs : env.signer with _ | s
  · simp only [hs] at htx
    replace htx := Option.some.inj htx
    subst htx
    simp [buildTransaction, hs]
  · simp only [hs] at htx
    rcases hsr : env.sendRawTransaction with e | txid
    · simp only [hsr] at htx
      replace htx := Option.some.inj htx
      subst htx
      simp [buildTransaction, hs]
    · simp only [hsr] at htx
      rcases hc : env.confirmTransaction txid with e | u
      · simp only [hc] at htx
        replace htx := Option.some.inj htx
        subst htx
        simp [buildTransaction, hs]
      · simp only [hc] at htx
        replace htx := Option.some.inj htx
        subst htx
        simp [buildTransaction, hs]

/-- C10.  For every transaction the handler builds, the fee payer is the
backend signer's public key when one is configured, and otherwise the
inspected wallet's own public key (so in unsigned mode the swept wallet
pays the network fee). -/
theorem fee_payer_selection (env : Env) (req : Request) (w : String) (pk : PubKey)
    (tx : Transaction)
    (hw : req.walletAddress = some w) (hne : ¬ w = "")
    (hpk : env.parsePubkey w = some pk)
    (htx : (runWallet env req).2.builtTx = some tx) :
    tx.feePayer = env.signer.getD pk ∧ (env.signer = none → tx.feePayer = pk) := by
  have hfp : tx.feePayer = env.signer.getD pk := by
    unfold runWallet at htx
    simp only [hw] at htx
    rw [if_neg hne] at htx
    simp only [hpk] at htx
    rcases hb : env.getBalance pk with e | b
    · simp [hb] at htx
    simp only [hb] at htx
    rcases ha : env.getTokenAccountsByOwner pk with e | accs
    · simp [ha] at htx
    simp only [ha] at htx
    exact afterSnapshot_builtTx_feePayer env pk b _ tx htx
  refine ⟨hfp, fun hnone => ?_⟩
  rw [hfp, hnone]
  rfl

/-- C6.  Every holding in `validSplBalances` has strictly positive raw
amount, and a discovered token account whose on-chain amount is zero
produces no holding at all. -/
theorem holdings_nonzero (env : Env) (accs : List PubKey) (h : Holding)
    (acc : PubKey) (ta : TokenAccountInfo)
    (hmem : h ∈ accs.filterMap (processAccount env))
    (hacc : env.getAccount acc = Except.ok ta) (hzero : ta.amount = 0) :
    0 < h.rawAmount ∧ processAccount env acc = none := by
  constructor
  · rcases List.mem_filterMap.mp hmem with ⟨a, _, ha⟩
    unfold processAccount at ha
    split at ha
    · exact Option.noConfusion ha
    split at ha
    · rw [Option.some_inj] at ha
      subst ha
      simpa using by assumption
    · exact Option.noConfusion ha
  · unfold processAccount
    rw [hacc]
    simp [hzero]

/-- C3.  Whenever the pipeline reaches the fee check with
`balance ≤ lamportsPerSignature * 3`, the handler returns the success
response with `transaction: null`, the message
"Insufficient SOL balance for transaction" and the snapshot, and the effect
log shows no transaction was built and no signing, submission or
confirmation call was made. -/
theorem insufficient_balance_response
    (env : Env) (req : Request) (w : String) (pk : PubKey) (b : Nat)
    (accs : List PubKey) (m : String) (p : Nat)
    (hw : req.walletAddress = some w) (hne : ¬ w = "")
    (hpk : env.parsePubkey w = some pk)
    (hbal : env.getBalance pk = Except.ok b)
    (haccs : env.getTokenAccountsByOwner pk = Except.ok accs)
    (hmsg : env.sendMessage = Except.ok m)
    (hfee : env.lamportsPerSignature = Except.ok p)
    (hle : b ≤ p * 3) :
    runWallet env req
      = (Response.okUnsigned b (accs.filterMap (processAccount env)) none
           (some "Insufficient SOL balance for transaction"),
         { balanceQueried := true, tokenAccountsQueried := true,
           notified := true, feeQueried := true }) := by
  unfold runWallet afterSnapshot
  simp only [hw]
  rw [if_neg hne]
  simp only [hpk, hbal, haccs, hmsg, hfee]
  rw [if_pos hle]

/-- Witness for `insufficient_balance_response`: a 2-lamport wallet against
a 1-lamport fee floor (reserve 3). -/
theorem insufficient_balance_response_witness :
    runWallet envC3 ⟨some "WALLET1"⟩
      = (Response.okUnsigned 2 (([] : List PubKey).filterMap (processAccount envC3)) none
           (some "Insufficient SOL balance for transaction"),
         { balanceQueried := true, tokenAccountsQueried := true,
           notified := true, feeQueried := true }) :=
  insufficient_balance_response envC3 ⟨some "WALLET1"⟩ "WALLET1" ⟨"WALLET1"⟩ 2 [] "msgid" 1
    rfl (by decide) (by decide) rfl rfl rfl rfl (by decide)

/-- The token-transfer part of an assembled transaction contributes no
native-transfer amount, so the only native amount is the sweep amount. -/
lemma nativeAmounts_buildTransaction (env : Env) (payer : PubKey)
    (vals : List Holding) (amount : Int) (blockhash : String) :
    nativeAmounts (buildTransaction env payer vals amount blockhash) = [amount] := by
  unfold nativeAmounts buildTransaction
  rw [List.filterMap_append]
  have h0 : (vals.filterMap (buildTokenInstr env payer)).filterMap
      (fun i => match i with | Instr.nativeTransfer _ _ l => some l | _ => none) = [] := by
    rw [List.filterMap_eq_nil_iff]
    intro i hi
    have := mem_buildTokenInstrs_isTokenTransfer env payer vals i hi
    cases i <;> simp_all [Instr.isTokenTransfer]
  rw [h0]
  rfl

/-- Whatever branch builds the transaction, it was built with the sweep
amount `balance − lamportsPerSignature * 3`, and only under
`balance > lamportsPerSignature * 3`. -/
lemma afterSnapshot_builtTx_nativeAmount (env : Env) (pk : PubKey) (b : Nat)
    (vals : List Holding) (tx : Transaction) (p : Nat)
    (hfee : env.lamportsPerSignature = Except.ok p)
    (htx : (afterSnapshot env pk b vals).2.builtTx = some tx) :
    p * 3 < b ∧ nativeAmounts tx = [(b : Int) - ((p * 3 : Nat) : Int)] := by
  unfold afterSnapshot at htx
  rcases hm : env.sendMessage with e | m
  · simp [hm] at htx
  simp only [hm] at htx
  simp only [hfee] at htx
  by_cases hle : b ≤ p * 3
  · simp [if_pos hle] at htx
  simp only [if_neg hle] at htx
  rcases hbh : env.getLatestBlockhash with e | bh
  · simp [hbh] at htx
  simp only [hbh] at htx
  refine ⟨by omega, ?_⟩
  rcases hs : env.signer with _ | s
  · simp only [hs] at htx
    replace htx := Option.some.inj htx
    subst htx
    exact nativeAmounts_buildTransaction env pk vals _ bh
  · simp only [hs] at htx
    rcases hsr : env.sendRawTransaction with e | txid
    · simp only [hsr] at htx
      replace htx := Option.some.inj htx
      subst htx
      exact nativeAmounts_buildTransaction env pk vals _ bh
    · simp only [hsr] at htx
      rcases hc : env.confirmTransaction txid with e | u
      · simp only [hc] at htx
        replace htx := Option.some.inj htx
        subst htx
        exact nativeAmounts_buildTransaction env pk vals _ bh
      · simp only [hc] at htx
        replace htx := Option.some.inj htx
        subst htx
        exact nativeAmounts_buildTransaction env pk vals _ bh

/-- C1 (amended).  For every transaction the handler builds — in either
signing mode — the single native transfer carries exactly
`balance − reservedFee` lamports (and a transaction is only ever built when
`balance > reservedFee`); this amount is strictly positive (hence never
negative) and never exceeds the balance, and it is strictly below the full
balance whenever the fee floor is positive — but it equals the full balance
when the fee floor is zero. -/
theorem sweep_amount_correct
    (env : Env) (req : Request) (w : String) (pk : PubKey) (b : Nat)
    (p : Nat) (tx : Transaction) (amt : Int)
    (hw : req.walletAddress = some w) (hne : ¬ w = "")
    (hpk : env.parsePubkey w = some pk)
    (hbal : env.getBalance pk = Except.ok b)
    (hfee : env.lamportsPerSignature = Except.ok p)
    (htx : (runWallet env req).2.builtTx = some tx)
    (hamt : amt = (b : Int) - ((p * 3 : Nat) : Int)) :
    nativeAmounts tx = [amt]
      ∧ p * 3 < b
      ∧ 0 < amt ∧ amt ≤ (b : Int)
      ∧ (0 < p → amt < (b : Int))
      ∧ (p = 0 → amt = (b : Int)) := by
  have key : p * 3 < b ∧ nativeAmounts tx = [(b : Int) - ((p * 3 : Nat) : Int)] := by
    unfold runWallet at htx
    simp only [hw] at htx
    rw [if_neg hne] at htx
    simp only [hpk] at htx
    simp only [hbal] at htx
    rcases ha : env.getTokenAccountsByOwner pk with e | accs
    · simp [ha] at htx
    simp only [ha] at htx
    exact afterSnapshot_builtTx_nativeAmount env pk b _ tx p hfee htx
  obtain ⟨hgt, hna⟩ := key
  subst hamt
  exact ⟨hna, hgt, by omega, by omega, fun hp => by omega, fun hp => by omega⟩

/-- Witness for `sweep_amount_correct`: 10 lamports against fee floor 1
(reserve 3), sweeping 7, in backend-signed mode. -/
theorem sweep_amount_correct_witness :
    nativeAmounts (⟨"BH1", ⟨"SIGNER"⟩,
        [Instr.nativeTransfer ⟨"WALLET1"⟩ recipient 7, Instr.memo memoText]⟩ :
      Transaction) = [7]
      ∧ 1 * 3 < 10
      ∧ 0 < (7 : Int) ∧ (7 : Int) ≤ ((10 : Nat) : Int)
      ∧ (0 < (1 : Nat) → (7 : Int) < ((10 : Nat) : Int))
      ∧ ((1 : Nat) = 0 → (7 : Int) = ((10 : Nat) : Int)) :=
  sweep_amount_correct envSigned ⟨some "WALLET1"⟩ "WALLET1" ⟨"WALLET1"⟩ 10 1
    ⟨"BH1", ⟨"SIGNER"⟩,
      [Instr.nativeTransfer ⟨"WALLET1"⟩ recipient 7, Instr.memo memoText]⟩ 7
    rfl (by decide) (by decide) rfl rfl (by decide) (by decide)

/-- C1 (counterexample).  With a zero per-signature fee floor (which the
code nowhere excludes) and a 1-lamport balance, the branch
`balance > reservedFee` is taken with `reservedFee = 0`, and the native
transfer's amount — 1 lamport — equals the full native balance, refuting
"never equal to the full native balance". -/
theorem sweep_amount_counterexample :
    (runWallet envC1 ⟨some "WALLET1"⟩).1
        = Response.okUnsigned 1 []
            (some ⟨"BH1", ⟨"WALLET1"⟩,
               [Instr.nativeTransfer ⟨"WALLET1"⟩ recipient 1, Instr.memo memoText]⟩)
            none
      ∧ nativeAmounts ⟨"BH1", ⟨"WALLET1"⟩,
            [Instr.nativeTransfer ⟨"WALLET1"⟩ recipient 1, Instr.memo memoText]⟩
          = [((1 : Nat) : Int)] := by
  constructor <;> rfl

/-- C5 (amended).  Metadata resolution over an environment exhibiting all
three regimes at once: (i) for any registry entry, the on-chain mint query
runs iff one of its `decimals`/`symbol`/`name` fields is JavaScript-falsy
(`decimals = 0` or an empty string) — and with no entry it always runs;
(ii) when the query does not run, the registry's decimals/symbol/name are
used verbatim (all necessarily truthy); (iii) when it runs and the chain
query succeeds, `decimals` is re-read from the chain (a falsy chain value
becoming 9) even if the registry supplied one, while truthy registry
symbol/name are kept; when the chain query fails, all three are the hard
defaults. -/
theorem metadata_fallback
    (env : Env) (mintR mintF mintE : String) (eR eF : RegistryEntry)
    (dF : Option Nat) (err : String)
    (hlookR : registryLookup env mintR = some eR)
    (hqR : mintQueryOccurs env mintR = false)
    (hlookF : registryLookup env mintF = some eF)
    (hqF : mintQueryOccurs env mintF = true)
    (hchainF : env.getParsedAccountInfo mintF = Except.ok dF)
    (hlookE : registryLookup env mintE = none)
    (hchainE : env.getParsedAccountInfo mintE = Except.error err) :
    mintQueryOccurs env mintR = (eR.decimals == 0 || eR.symbol == "" || eR.name == "")
    ∧ mintQueryOccurs env mintF = (eF.decimals == 0 || eF.symbol == "" || eF.name == "")
    ∧ mintQueryOccurs env mintE = true
    ∧ resolveMeta env mintR = (eR.decimals, eR.symbol, eR.name)
    ∧ ¬ eR.decimals = 0 ∧ ¬ eR.symbol = "" ∧ ¬ eR.name = ""
    ∧ resolveMeta env mintF
        = (jsOrNat dF 9, jsOrStr (some eF.symbol) "TOKEN",
           jsOrStr (some eF.name) (defaultName mintF))
    ∧ resolveMeta env mintE = (9, "TOKEN", defaultName mintE) := by
  have hcharR : mintQueryOccurs env mintR
      = (eR.decimals == 0 || eR.symbol == "" || eR.name == "") := by
    unfold mintQueryOccurs
    rw [hlookR]
    rfl
  have hcharF : mintQueryOccurs env mintF
      = (eF.decimals == 0 || eF.symbol == "" || eF.name == "") := by
    unfold mintQueryOccurs
    rw [hlookF]
    rfl
  have hcharE : mintQueryOccurs env mintE = true := by
    unfold mintQueryOccurs
    rw [hlookE]
    rfl
  rw [hcharR] at hqR
  simp only [Bool.or_eq_false_iff, beq_eq_false_iff_ne, ne_eq] at hqR
  obtain ⟨⟨hd, hs⟩, hn⟩ := hqR
  refine ⟨hcharR, hcharF, hcharE, ?_, hd, hs, hn, ?_, ?_⟩
  · unfold resolveMeta
    rw [hlookR]
    have hcond : (jsFalsyNat ((some eR).map (·.decimals))
        || jsFalsyStr ((some eR).map (·.symbol))
        || jsFalsyStr ((some eR).map (·.name))) = false := by
      simp [jsFalsyNat, jsFalsyStr, hd, hs, hn]
    simp only [hcond, Bool.false_eq_true, if_false]
    rfl
  · unfold resolveMeta
    rw [hlookF]
    have hcond : (jsFalsyNat ((some eF).map (·.decimals))
        || jsFalsyStr ((some eF).map (·.symbol))
        || jsFalsyStr ((some eF).map (·.name))) = true := by
      unfold mintQueryOccurs at hqF
      rw [hlookF] at hqF
      exact hqF
    simp only [hcond, if_true]
    rw [hchainF]
    rfl
  · unfold resolveMeta
    rw [hlookE]
    have hcond : (jsFalsyNat ((none : Option RegistryEntry).map (·.decimals))
        || jsFalsyStr ((none : Option RegistryEntry).map (·.symbol))
        || jsFalsyStr ((none : Option RegistryEntry).map (·.name))) = true := rfl
    simp only [hcond, if_true]
    rw [hchainE]

/-- Witness for `metadata_fallback` at `envC5m`: `MintY` (all-truthy entry)
resolves from the registry with no query; `MintZ` (entry with decimals 0)
triggers the query and re-reads decimals from the chain (0 again, coerced
to 9) while keeping the registry symbol/name; the unknown `MintE` with a
failing chain query gets the hard defaults. -/
theorem metadata_fallback_witness :
    mintQueryOccurs envC5m "MintY" = ((6 : Nat) == 0 || "SY" == "" || "NY" == "")
    ∧ mintQueryOccurs envC5m "MintZ" = ((0 : Nat) == 0 || "SYM" == "" || "NameZ" == "")
    ∧ mintQueryOccurs envC5m "MintE" = true
    ∧ resolveMeta envC5m "MintY" = (6, "SY", "NY")
    ∧ ¬ (6 : Nat) = 0 ∧ ¬ "SY" = "" ∧ ¬ "NY" = ""
    ∧ resolveMeta envC5m "MintZ"
        = (jsOrNat (some 0) 9, jsOrStr (some "SYM") "TOKEN",
           jsOrStr (some "NameZ") (defaultName "MintZ"))
    ∧ resolveMeta envC5m "MintE" = (9, "TOKEN", defaultName "MintE") :=
  metadata_fallback envC5m "MintY" "MintZ" "MintE"
    ⟨"MintY", 6, "SY", "NY", some "logo"⟩ ⟨"MintZ", 0, "SYM", "NameZ", none⟩
    (some 0) "rpc down" (by decide) (by decide) (by decide) (by decide) rfl
    (by decide) rfl

/-- C5 (counterexample).  The registry has an entry for `MintZ` (decimals 0,
symbol "SYM", name "NameZ"), so per the claim no fallback query may occur
and the registry's decimals (0) must be used; but `!decimals` is true for 0,
the on-chain query runs, and `decimals` resolves to 9 (the chain's 0 is
also falsy in `… || 9`), not the registry's 0. -/
theorem metadata_fallback_counterexample :
    registryLookup envC5 "MintZ" = some ⟨"MintZ", 0, "SYM", "NameZ", none⟩
    ∧ mintQueryOccurs envC5 "MintZ" = true
    ∧ resolveMeta envC5 "MintZ" = (9, "SYM", "NameZ")
    ∧ ¬ (9 : Nat) = 0 := by
  refine ⟨rfl, rfl, rfl, by decide⟩

/-- C7 (amended).  A missing or empty `walletAddress` yields the 400
"Wallet address is required" with no external call of any kind; an address
that is present but fails `new PublicKey` parsing instead lands in the
catch-all and yields the generic 500 — still before any ledger query,
notification or transaction work. -/
theorem input_validation
    (env : Env) (req reqM : Request) (w : String)
    (hw : req.walletAddress = none)
    (hwm : reqM.walletAddress = some w) (hne : ¬ w = "")
    (hbadpk : env.parsePubkey w = none) :
    runWallet env req = (Response.badRequest "Wallet address is required", {})
    ∧ runWallet env ⟨some ""⟩ = (Response.badRequest "Wallet address is required", {})
    ∧ runWallet env reqM = (catchAllResponse, {})
    ∧ (runWallet env reqM).1.status = 500 := by
  have h1 : runWallet env req = (Response.badRequest "Wallet address is required", {}) := by
    unfold runWallet
    rw [hw]
  have h3 : runWallet env reqM = (catchAllResponse, {}) := by
    unfold runWallet
    simp only [hwm]
    rw [if_neg hne]
    rw [hbadpk]
  exact ⟨h1, rfl, h3, by rw [h3]; rfl⟩

/-- Witness for `input_validation`: an absent address and the unparseable
address `"bad"` against `envBase`. -/
theorem input_validation_witness :
    runWallet envBase ⟨none⟩ = (Response.badRequest "Wallet address is required", {})
    ∧ runWallet envBase ⟨some ""⟩ = (Response.badRequest "Wallet address is required", {})
    ∧ runWallet envBase ⟨some "bad"⟩ = (catchAllResponse, {})
    ∧ (runWallet envBase ⟨some "bad"⟩).1.status = 500 :=
  input_validation envBase ⟨none⟩ ⟨some "bad"⟩ "bad" rfl rfl (by decide) (by decide)

/-- C7 (counterexample).  A present but malformed wallet address produces
the generic 500 ("Failed to process wallet address"), not the 400 the claim
requires for malformed addresses. -/
theorem input_validation_counterexample :
    (runWallet envBase ⟨some "bad"⟩).1 = catchAllResponse
    ∧ (runWallet envBase ⟨some "bad"⟩).1.status = 500
    ∧ ¬ (runWallet envBase ⟨some "bad"⟩).1.status = 400 := by
  refine ⟨by decide, by decide, by decide⟩

/-- C4.  Per-token failure isolation: a token account whose read fails
resolves to `none` and is dropped from the snapshot, the whole request then
behaves exactly as if that account had not been discovered (so the failure
never aborts aggregation and never surfaces in the response); likewise a
holding whose transfer-instruction construction fails (here: the source
associated-token-account read throws) contributes no instruction and the
remaining instructions are still built. -/
theorem token_failure_isolation
    (env : Env) (req : Request) (w : String) (pk : PubKey) (b : Nat)
    (xs ys : List PubKey) (a : PubKey) (e : String)
    (payer mintPubkey sourceATA destinationATA : PubKey) (t : Holding) (e2 : String)
    (vs ws : List Holding)
    (hw : req.walletAddress = some w) (hne : ¬ w = "")
    (hpk : env.parsePubkey w = some pk)
    (hbal : env.getBalance pk = Except.ok b)
    (haccs : env.getTokenAccountsByOwner pk = Except.ok (xs ++ a :: ys))
    (hfail : env.getAccount a = Except.error e)
    (hmint : env.parsePubkey t.mint = some mintPubkey)
    (hsrc : env.getAssociatedTokenAddress mintPubkey payer = Except.ok sourceATA)
    (hdst : env.getAssociatedTokenAddress mintPubkey recipient = Except.ok destinationATA)
    (hata : env.getAccount sourceATA = Except.error e2) :
    processAccount env a = none
    ∧ (xs ++ a :: ys).filterMap (processAccount env)
        = (xs ++ ys).filterMap (processAccount env)
    ∧ runWallet env req
        = ((afterSnapshot env pk b ((xs ++ ys).filterMap (processAccount env))).1,
           { (afterSnapshot env pk b ((xs ++ ys).filterMap (processAccount env))).2 with
               balanceQueried := true, tokenAccountsQueried := true })
    ∧ buildTokenInstr env payer t = none
    ∧ (vs ++ t :: ws).filterMap (buildTokenInstr env payer)
        = (vs ++ ws).filterMap (buildTokenInstr env payer) := by
  have h1 : processAccount env a = none := by
    unfold processAccount
    rw [hfail]
  have h2 : (xs ++ a :: ys).filterMap (processAccount env)
      = (xs ++ ys).filterMap (processAccount env) := by
    rw [List.filterMap_append, List.filterMap_append, List.filterMap_cons_none h1]
  have h4 : buildTokenInstr env payer t = none := by
    unfold buildTokenInstr
    simp only [hmint, hsrc, hdst, hata]
  have h5 : (vs ++ t :: ws).filterMap (buildTokenInstr env payer)
      = (vs ++ ws).filterMap (buildTokenInstr env payer) := by
    rw [List.filterMap_append, List.filterMap_append, List.filterMap_cons_none h4]
  refine ⟨h1, h2, ?_, h4, h5⟩
  unfold runWallet
  simp only [hw]
  rw [if_neg hne]
  simp only [hpk, hbal, haccs, h2]

/-- Witness for `token_failure_isolation`: `envC4`'s `accBad` read fails and
is dropped; building the transfer instruction for the `Mint1` holding fails
at the source-account read and is skipped. -/
theorem token_failure_isolation_witness :
    processAccount envC4 ⟨"accBad"⟩ = none
    ∧ ([(⟨"acc1"⟩ : PubKey)] ++ (⟨"accBad"⟩ : PubKey) :: []).filterMap (processAccount envC4)
        = ([(⟨"acc1"⟩ : PubKey)] ++ []).filterMap (processAccount envC4)
    ∧ runWallet envC4 ⟨some "WALLET1"⟩
        = ((afterSnapshot envC4 ⟨"WALLET1"⟩ 10
              (([(⟨"acc1"⟩ : PubKey)] ++ []).filterMap (processAccount envC4))).1,
           { (afterSnapshot envC4 ⟨"WALLET1"⟩ 10
                (([(⟨"acc1"⟩ : PubKey)] ++ []).filterMap (processAccount envC4))).2 with
               balanceQueried := true, tokenAccountsQueried := true })
    ∧ buildTokenInstr envC4 ⟨"WALLET1"⟩ tC4 = none
    ∧ (([] : List Holding) ++ tC4 :: []).filterMap (buildTokenInstr envC4 ⟨"WALLET1"⟩)
        = (([] : List Holding) ++ []).filterMap (buildTokenInstr envC4 ⟨"WALLET1"⟩) :=
  token_failure_isolation envC4 (⟨some "WALLET1"⟩ : Request) "WALLET1"
    (⟨"WALLET1"⟩ : PubKey) 10 [(⟨"acc1"⟩ : PubKey)] [] (⟨"accBad"⟩ : PubKey) "boom"
    (⟨"WALLET1"⟩ : PubKey) (⟨"Mint1"⟩ : PubKey) (⟨"Mint1@WALLET1"⟩ : PubKey)
    (⟨"Mint1@84vka944L9qFdBZKHEvpfDp9qqJ5sfcjDXaQ3wjxVRLM"⟩ : PubKey) tC4 "boom" [] []
    rfl (by decide) (by decide) rfl rfl rfl (by decide) rfl rfl rfl

/-- Aggregation reads only the account, registry and mint-query fields of
the environment. -/
lemma processAccount_congr (env env' : Env)
    (h1 : env'.getAccount = env.getAccount)
    (h2 : env'.tokenList = env.tokenList)
    (h3 : env'.getParsedAccountInfo = env.getParsedAccountInfo) :
    processAccount env' = processAccount env := by
  funext a
  unfold processAccount resolveMeta registryLookup
  simp only [h1, h2, h3]

/-- Per-token instruction construction reads only the parse, ATA-derivation
and account-read fields of the environment. -/
lemma buildTokenInstr_congr (env env' : Env)
    (h1 : env'.parsePubkey = env.parsePubkey)
    (h2 : env'.getAssociatedTokenAddress = env.getAssociatedTokenAddress)
    (h3 : env'.getAccount = env.getAccount) :
    buildTokenInstr env' = buildTokenInstr env := by
  funext payer t
  unfold buildTokenInstr
  simp only [h1, h2, h3]

/-- Transaction assembly additionally reads only the signer field. -/
lemma buildTransaction_congr (env env' : Env)
    (h1 : env'.parsePubkey = env.parsePubkey)
    (h2 : env'.getAssociatedTokenAddress = env.getAssociatedTokenAddress)
    (h3 : env'.getAccount = env.getAccount)
    (h4 : env'.signer = env.signer) :
    buildTransaction env' = buildTransaction env := by
  funext payer vals amount bh
  unfold buildTransaction
  rw [buildTokenInstr_congr env env' h1 h2 h3, h4]

/-- The post-snapshot pipeline is insensitive to the value a successful
Telegram push resolves with: two environments whose `sendMessage` both
succeed (with arbitrary payloads) and that agree on the remaining fields it
reads produce identical outcomes. -/
lemma afterSnapshot_ok_congr (env env' : Env) (m m' : String)
    (hm : env.sendMessage = Except.ok m) (hm' : env'.sendMessage = Except.ok m')
    (h2 : env'.lamportsPerSignature = env.lamportsPerSignature)
    (h3 : env'.getLatestBlockhash = env.getLatestBlockhash)
    (h4 : env'.signer = env.signer)
    (h5 : env'.sendRawTransaction = env.sendRawTransaction)
    (h6 : env'.confirmTransaction = env.confirmTransaction)
    (hbt : buildTransaction env' = buildTransaction env) :
    afterSnapshot env' = afterSnapshot env := by
  funext pk b vals
  unfold afterSnapshot
  simp only [hm, hm', h2, h3, h4, h5, h6, hbt]

/-- C8 (amended).  The Telegram push's resolved value is ignored: replacing
it by any other successful value leaves the whole response and effect log
unchanged.  But the push is awaited on the critical path, so it is not
fire-and-forget: if it rejects, the request fails with the generic
catch-all 500 instead of producing the normal response. -/
theorem notification_best_effort
    (env : Env) (req : Request) (w : String) (pk : PubKey) (b : Nat)
    (accs : List PubKey) (m m' em : String)
    (hw : req.walletAddress = some w) (hne : ¬ w = "")
    (hpk : env.parsePubkey w = some pk)
    (hbal : env.getBalance pk = Except.ok b)
    (haccs : env.getTokenAccountsByOwner pk = Except.ok accs)
    (hmsg : env.sendMessage = Except.ok m) :
    runWallet { env with sendMessage := Except.ok m' } req = runWallet env req
    ∧ runWallet { env with sendMessage := Except.error em } req
        = (catchAllResponse,
           { balanceQueried := true, tokenAccountsQueried := true, notified := true }) := by
  constructor
  · have hpa : processAccount { env with sendMessage := Except.ok m' }
        = processAccount env := processAccount_congr env _ rfl rfl rfl
    have hbt : buildTransaction { env with sendMessage := Except.ok m' }
        = buildTransaction env := buildTransaction_congr env _ rfl rfl rfl rfl
    have has : afterSnapshot { env with sendMessage := Except.ok m' }
        = afterSnapshot env :=
      afterSnapshot_ok_congr env _ m m' hmsg rfl rfl rfl rfl rfl rfl hbt
    unfold runWallet
    simp only [hw]
    simp only [if_neg hne]
    simp only [hpk, hbal, haccs, hpa, has]
  · unfold runWallet afterSnapshot
    simp only [hw]
    rw [if_neg hne]
    simp only [hpk, hbal, haccs]

/-- Witness for `notification_best_effort` at `envBase`. -/
theorem notification_best_effort_witness :
    runWallet { envBase with sendMessage := Except.ok "other" } ⟨some "WALLET1"⟩
        = runWallet envBase ⟨some "WALLET1"⟩
    ∧ runWallet { envBase with sendMessage := Except.error "down" } ⟨some "WALLET1"⟩
        = (catchAllResponse,
           { balanceQueried := true, tokenAccountsQueried := true, notified := true }) :=
  notification_best_effort envBase ⟨some "WALLET1"⟩ "WALLET1" ⟨"WALLET1"⟩ 10 []
    "msgid" "other" "down" rfl (by decide) (by decide) rfl rfl rfl

/-- C8 (counterexample).  Two environments identical except that the
Telegram push fails in one: the failing one returns the generic 500 where
the other returns the normal unsigned-sweep success — the push failure does
change the request's response, refuting fire-and-forget. -/
theorem notification_best_effort_counterexample :
    (runWallet envC8fail ⟨some "WALLET1"⟩).1 = catchAllResponse
    ∧ (runWallet envBase ⟨some "WALLET1"⟩).1
        = Response.okUnsigned 10 []
            (some ⟨"BH1", ⟨"WALLET1"⟩,
               [Instr.nativeTransfer ⟨"WALLET1"⟩ recipient 7, Instr.memo memoText]⟩)
            none
    ∧ ¬ (runWallet envC8fail ⟨some "WALLET1"⟩).1
          = (runWallet envBase ⟨some "WALLET1"⟩).1 := by
  refine ⟨rfl, rfl, by decide⟩

lemma promiseAllSched_aux_length {α : Type} (results : List α) (d : α)
    (sched : List Nat) (acc : List α) :
    (sched.foldl (fun a i => a.set i (results.getD i d)) acc).length = acc.length := by
  induction sched generalizing acc with
  | nil => rfl
  | cons i rest ih => rw [List.foldl_cons, ih, List.length_set]

lemma promiseAllSched_aux_not_mem {α : Type} (results : List α) (d : α)
    (sched : List Nat) (acc : List α) (j : Nat) (hj : j ∉ sched) :
    (sched.foldl (fun a i => a.set i (results.getD i d)) acc)[j]? = acc[j]? := by
  induction sched generalizing acc with
  | nil => rfl
  | cons i rest ih =>
    rw [List.foldl_cons, ih _ (fun h => hj (List.mem_cons_of_mem i h)),
      List.getElem?_set_ne (fun h => hj (by rw [← h]; exact List.mem_cons_self i rest))]

lemma promiseAllSched_aux_mem {α : Type} (results : List α) (d : α)
    (sched : List Nat) (acc : List α) (j : Nat) (hmem : j ∈ sched) (hj : j < acc.length) :
    (sched.foldl (fun a i => a.set i (results.getD i d)) acc)[j]?
      = some (results.getD j d) := by
  induction sched generalizing acc with
  | nil => cases hmem
  | cons i rest ih =>
    rw [List.foldl_cons]
    by_cases hr : j ∈ rest
    · exact ih _ hr (by rw [List.length_set]; exact hj)
    · have hij : i = j := by
        rcases List.mem_cons.mp hmem with h | h
        · exact h.symm
        · exact absurd h hr
      subst hij
      rw [promiseAllSched_aux_not_mem results d rest _ i hr, List.getElem?_set_self hj]

/-- When every promise settles exactly once (the schedule is a permutation
of the indices), `Promise.all` produces the results in the promises'
original positional order, whatever the completion order was. -/
lemma promiseAllSched_perm {α : Type} (sched : List Nat) (results : List α) (d : α)
    (hperm : List.Perm sched (List.range results.length)) :
    promiseAllSched sched results d = results := by
  apply List.ext_getElem?
  intro j
  unfold promiseAllSched
  by_cases hj : j < results.length
  · have hmem : j ∈ sched := hperm.mem_iff.mpr (List.mem_range.mpr hj)
    rw [promiseAllSched_aux_mem results d sched _ j hmem
        (by rw [List.length_replicate]; exact hj)]
    rw [List.getD_eq_getElem?_getD, List.getElem?_eq_getElem hj]
    rfl
  · rw [List.getElem?_eq_none
        (by rw [promiseAllSched_aux_length, List.length_replicate]; omega)]
    rw [List.getElem?_eq_none (by omega)]

/-- C9 (amended).  The `splBalances` array is positionally determined:
whatever order the concurrent per-account resolutions complete in (any
permutation of the indices), `Promise.all` yields exactly the per-account
results in discovery order.  The holdings sequence therefore reflects the
discovery order of the token accounts, not the completion order, and is
identical across runs with the same per-account results. -/
theorem aggregation_order (env : Env) (tokenAccounts : List PubKey) (sched : List Nat)
    (hperm : List.Perm sched (List.range tokenAccounts.length)) :
    splBalancesSched env tokenAccounts sched = tokenAccounts.map (processAccount env) := by
  unfold splBalancesSched
  apply promiseAllSched_perm
  rwa [List.length_map]

/-- Witness for `aggregation_order`: two accounts completing in reversed
order still produce the discovery-order array. -/
theorem aggregation_order_witness :
    splBalancesSched envC9 [⟨"acc1"⟩, ⟨"acc2"⟩] [1, 0]
      = [(⟨"acc1"⟩ : PubKey), ⟨"acc2"⟩].map (processAccount envC9) :=
  aggregation_order envC9 [⟨"acc1"⟩, ⟨"acc2"⟩] [1, 0] (by decide)

/-- C9 (counterexample).  Two distinguishable token accounts resolved under
the two possible completion orders yield the *same* holdings sequence, and
it is the discovery order (`acc1`'s holding first even when `acc2`
completes first): the sequence does not reflect completion order and is
stable across runs, refuting the claim. -/
theorem aggregation_order_counterexample :
    splBalancesSched envC9 [⟨"acc1"⟩, ⟨"acc2"⟩] [1, 0]
        = [processAccount envC9 ⟨"acc1"⟩, processAccount envC9 ⟨"acc2"⟩]
    ∧ splBalancesSched envC9 [⟨"acc1"⟩, ⟨"acc2"⟩] [0, 1]
        = [processAccount envC9 ⟨"acc1"⟩, processAccount envC9 ⟨"acc2"⟩]
    ∧ ¬ processAccount envC9 ⟨"acc1"⟩ = processAccount envC9 ⟨"acc2"⟩ := by
  refine ⟨by decide, by decide, by decide⟩

/-- Witness for `holdings_nonzero`: `envC6` aggregates only `acc1`'s
5-unit holding; the zero-amount `accZ` yields no holding. -/
theorem holdings_nonzero_witness :
    0 < tC4.rawAmount ∧ processAccount envC6 ⟨"accZ"⟩ = none :=
  holdings_nonzero envC6 [⟨"acc1"⟩, ⟨"accZ"⟩] tC4 ⟨"accZ"⟩ ⟨"MintZ", 0⟩
    (by decide) rfl rfl

/-- Witness for `fee_payer_selection`: the unsigned-mode transaction built
by `envBase` pays fees from the inspected wallet itself. -/
theorem fee_payer_selection_witness :
    (⟨"BH1", ⟨"WALLET1"⟩,
        [Instr.nativeTransfer ⟨"WALLET1"⟩ recipient 7, Instr.memo memoText]⟩ :
      Transaction).feePayer = envBase.signer.getD ⟨"WALLET1"⟩
    ∧ (envBase.signer = none →
        (⟨"BH1", ⟨"WALLET1"⟩,
            [Instr.nativeTransfer ⟨"WALLET1"⟩ recipient 7, Instr.memo memoText]⟩ :
          Transaction).feePayer = ⟨"WALLET1"⟩) :=
  fee_payer_selection envBase ⟨some "WALLET1"⟩ "WALLET1" ⟨"WALLET1"⟩
    ⟨"BH1", ⟨"WALLET1"⟩,
      [Instr.nativeTransfer ⟨"WALLET1"⟩ recipient 7, Instr.memo memoText]⟩
    rfl (by decide) (by decide) (by decide)

end Solbac
